import Mathlib

/-!
Verification development for the asynchronous task-dispatch and
credit-ledger pipeline of the `food_project` FastAPI backend.

The Python sources under `app/messaging`, `app/workers` and
`app/services` are shallowly embedded below:

* pydantic models become Lean structures; field validators run inside an
  explicit `Except`-returning constructor;
* `Decimal(10, 2)` money amounts are exact multiples of 0.01 and embed
  into the integers by scaling; the model carries them as `Int` (every
  amount the properties mention is whole);
* the SQLAlchemy session becomes an explicit `Session` record holding a
  committed and a pending database snapshot; `commit` publishes the
  pending snapshot, `rollback` discards it;
* random UUIDs for transaction ids are modelled by a fresh-name counter
  carried in the session (the ids are referenced by no property);
* Python exceptions raised by the persistence layer are modelled by an
  explicit fault oracle passed to the handler, selecting which
  persistence step (if any) raises;
* the JSON wire format is modelled at the level of a JSON value tree;
  the textual printing/parsing layer belongs to the json library, not to
  this repository.
-/

namespace FoodProject

/-- A JSON value, the payload type for `conversation_history` entries and
the wire format of `MLTaskMessage.to_json` / `from_json`. -/
inductive Json where
  | null : Json
  | str : String → Json
  | num : Int → Json
  | arr : List Json → Json
  | obj : List (String × Json) → Json

/-- First-match association lookup, the model of `dict` access on a
decoded JSON object (Python dict keys are unique, so first match is the
match). -/
def lookupField : List (String × Json) → String → Option Json
  | [], _ => none
  | (k, v) :: rest, key => if k = key then some v else lookupField rest key

/-- `j[key]` access on a JSON value: only objects have fields. -/
def Json.getField : Json → String → Option Json
  | .obj fields, key => lookupField fields key
  | _, _ => none

/-- `TaskPriority(IntEnum)` from `app/messaging/task_schema.py`:
LOW = 1, NORMAL = 5, HIGH = 10. -/
inductive TaskPriority where
  | low : TaskPriority
  | normal : TaskPriority
  | high : TaskPriority
deriving DecidableEq, Repr

/-- The numeric value of the `IntEnum` member. -/
def TaskPriority.toInt : TaskPriority → Int
  | .low => 1
  | .normal => 5
  | .high => 10

/-- Parsing an int back into the `IntEnum`: pydantic accepts exactly the
declared member values 1, 5 and 10. -/
def TaskPriority.ofInt (n : Int) : Option TaskPriority :=
  if n = 1 then some .low
  else if n = 5 then some .normal
  else if n = 10 then some .high
  else none

/-- `MLTaskMessage` from `app/messaging/task_schema.py`.  `created_at`
is kept as its ISO wire string (its structure is referenced by no
property); `conversation_history` is the untyped Python `list`, i.e. a
list of JSON values. -/
structure MLTaskMessage where
  task_id : String
  prediction_id : String
  user_id : String
  message : String
  conversation_history : List Json
  model_id : String
  priority : TaskPriority
  created_at : String
  retry_count : Int
  max_retries : Int

/-- The characters Python's `str.strip()` removes (the ASCII whitespace
set: space, tab, newline, carriage return, vertical tab, form feed). -/
def isPySpace (c : Char) : Bool :=
  c.toNat = 32 ∨ c.toNat = 9 ∨ c.toNat = 10 ∨ c.toNat = 13 ∨
    c.toNat = 11 ∨ c.toNat = 12

/-- Python's `str.strip()`: drop leading and trailing whitespace. -/
def pyStrip (s : String) : String :=
  ⟨((s.data.dropWhile isPySpace).reverse.dropWhile isPySpace).reverse⟩

/-- Field validator `message_not_empty`: rejects an empty or
whitespace-only message and stores the stripped text. -/
def validateMessage (value : String) : Except String String :=
  if value = "" ∨ pyStrip value = "" then .error "Message cannot be empty"
  else .ok (pyStrip value)

/-- Field validator `validate_history`: `None` becomes the empty list,
any actual list passes through. -/
def validateHistory (value : Option (List Json)) : List Json :=
  match value with
  | none => []
  | some l => l

/-- Constructing an `MLTaskMessage`: pydantic runs the field validators,
raising `ValueError` (here `Except.error`) when `message` is empty after
stripping. -/
def mkMLTaskMessage (task_id prediction_id user_id message : String)
    (conversation_history : Option (List Json)) (model_id : String)
    (priority : TaskPriority) (created_at : String)
    (retry_count max_retries : Int) : Except String MLTaskMessage :=
  match validateMessage message with
  | .error e => .error e
  | .ok m =>
      .ok { task_id := task_id, prediction_id := prediction_id,
            user_id := user_id, message := m,
            conversation_history := validateHistory conversation_history,
            model_id := model_id, priority := priority,
            created_at := created_at, retry_count := retry_count,
            max_retries := max_retries }

/-- `MLTaskMessage.can_retry`: `retry_count < max_retries`. -/
def MLTaskMessage.can_retry (m : MLTaskMessage) : Bool :=
  m.retry_count < m.max_retries

/-- `MLTaskMessage.increment_retry`: `model_copy` with `retry_count + 1`;
the original value is untouched. -/
def MLTaskMessage.increment_retry (m : MLTaskMessage) : MLTaskMessage :=
  { m with retry_count := m.retry_count + 1 }

/-- `MLTaskMessage.to_json` at the JSON-tree level: `model_dump_json`
emits every field, the priority as its numeric value. -/
def MLTaskMessage.toJson (m : MLTaskMessage) : Json :=
  .obj [("task_id", .str m.task_id),
        ("prediction_id", .str m.prediction_id),
        ("user_id", .str m.user_id),
        ("message", .str m.message),
        ("conversation_history", .arr m.conversation_history),
        ("model_id", .str m.model_id),
        ("priority", .num m.priority.toInt),
        ("created_at", .str m.created_at),
        ("retry_count", .num m.retry_count),
        ("max_retries", .num m.max_retries)]

/-- Decoding a required string field. -/
def getStr (j : Json) (key : String) : Except String String :=
  match j.getField key with
  | some (.str s) => .ok s
  | _ => .error (key ++ ": expected string")

/-- Decoding a required int field. -/
def getNum (j : Json) (key : String) : Except String Int :=
  match j.getField key with
  | some (.num n) => .ok n
  | _ => .error (key ++ ": expected int")

/-- Decoding `conversation_history` off the wire: JSON `null` and an
absent field both produce the default empty list (validator
`validate_history` plus the pydantic default); anything not a list is
rejected. -/
def getHistory (j : Json) : Except String (List Json) :=
  match j.getField "conversation_history" with
  | some .null => .ok []
  | none => .ok []
  | some (.arr l) => .ok l
  | some _ => .error "conversation_history: expected list"

/-- Decoding `priority`: only the `IntEnum` member values parse. -/
def getPriority (j : Json) : Except String TaskPriority :=
  match j.getField "priority" with
  | some (.num n) =>
      match TaskPriority.ofInt n with
      | some p => .ok p
      | none => .error "priority: not a TaskPriority"
  | _ => .error "priority: expected int"

/-- `MLTaskMessage.from_json` at the JSON-tree level:
`model_validate_json` decodes every field and re-runs the field
validators (so `message` is stripped again and must be non-empty). -/
def MLTaskMessage.fromJson (j : Json) : Except String MLTaskMessage := do
  let task_id ← getStr j "task_id"
  let prediction_id ← getStr j "prediction_id"
  let user_id ← getStr j "user_id"
  let rawMessage ← getStr j "message"
  let message ← validateMessage rawMessage
  let history ← getHistory j
  let model_id ← getStr j "model_id"
  let priority ← getPriority j
  let created_at ← getStr j "created_at"
  let retry_count ← getNum j "retry_count"
  let max_retries ← getNum j "max_retries"
  return { task_id := task_id, prediction_id := prediction_id,
           user_id := user_id, message := message,
           conversation_history := history, model_id := model_id,
           priority := priority, created_at := created_at,
           retry_count := retry_count, max_retries := max_retries }

/-- `ValidationResult` from `app/workers/validators.py`. -/
structure ValidationResult where
  is_valid : Bool
  errors : List String
deriving Repr

/-- `ValidationResult.add_error`: append the error and clear validity. -/
def ValidationResult.add_error (r : ValidationResult) (e : String) :
    ValidationResult :=
  { is_valid := false, errors := r.errors ++ [e] }

/-- `ValidationResult.merge`: conjunction of validity, concatenation of
errors. -/
def ValidationResult.merge (r other : ValidationResult) : ValidationResult :=
  { is_valid := r.is_valid && other.is_valid,
    errors := r.errors ++ other.errors }

/-- `ValidationResult.error_message`: `None` when clean, else the errors
joined by a separator. -/
def ValidationResult.error_message (r : ValidationResult) : Option String :=
  match r.errors with
  | [] => none
  | es => some (String.intercalate "; " es)

/-- `MessageValidator.validate` from `app/workers/validators.py`.  The
worker always passes the task's `message : str`, so the
`isinstance(message, str)` branch cannot fire and is omitted.  An empty
string is caught by the falsiness check (`Message is required`); after
stripping, emptiness and the 10,000-character cap are checked. -/
def MessageValidator.validate (message : String) : ValidationResult :=
  if message = "" then
    (ValidationResult.mk true []).add_error "Message is required"
  else
    let m := pyStrip message
    let r := ValidationResult.mk true []
    let r := if m.length < 1 then r.add_error "Message cannot be empty" else r
    if m.length > 10000 then
      r.add_error "Message exceeds maximum length of 10000"
    else r

/-- `HistoryValidator.validate` on one history item: a non-object is one
error; an object is checked for a known `role` and a present `content`. -/
def validateHistoryItem (idx : Nat) (item : Json) : List String :=
  match item with
  | .obj fields =>
      (match lookupField fields "role" with
       | none => [s!"History item {idx} missing 'role' field"]
       | some (.str r) =>
           if r = "user" ∨ r = "assistant" ∨ r = "system" then []
           else [s!"History item {idx} has invalid role"]
       | some _ => [s!"History item {idx} has invalid role"]) ++
      (match lookupField fields "content" with
       | none => [s!"History item {idx} missing 'content' field"]
       | some _ => [])
  | _ => [s!"History item {idx} must be an object"]

/-- Accumulate the per-item errors of `HistoryValidator.validate`,
numbering items from `idx`. -/
def historyItemErrors (idx : Nat) : List Json → List String
  | [] => []
  | item :: rest => validateHistoryItem idx item ++ historyItemErrors (idx + 1) rest

/-- `HistoryValidator.validate` from `app/workers/validators.py`: `None`
passes, a non-list is rejected, a list longer than 100 is rejected
outright, otherwise each entry is checked for shape, role and content. -/
def HistoryValidator.validate (history : Json) : ValidationResult :=
  match history with
  | .null => ValidationResult.mk true []
  | .arr l =>
      if l.length > 100 then
        (ValidationResult.mk true []).add_error
          "Conversation history exceeds maximum length of 100"
      else
        { is_valid := historyItemErrors 0 l = [],
          errors := historyItemErrors 0 l }
  | _ =>
      (ValidationResult.mk true []).add_error
        "Conversation history must be a list"

/-- The composite validator built by
`TaskValidatorFactory.create_ml_task_validator`: start valid, merge the
message validator's verdict, then the history validator's. -/
def validateTask (message : String) (history : Json) : ValidationResult :=
  ((ValidationResult.mk true []).merge
      (MessageValidator.validate message)).merge
    (HistoryValidator.validate history)

/-- The lifetime counters of `BaseWorker` (`_processed_count`,
`_failed_count`). -/
structure WorkerCounters where
  processed_count : Nat
  failed_count : Nat
deriving Repr

/-- `BaseWorker.success_rate` from `app/workers/base.py`: `0.0` when no
task was counted, else `processed / (processed + failed)`.  Python's
true division of these non-negative ints is modelled exactly in `ℚ`. -/
def BaseWorker.success_rate (w : WorkerCounters) : ℚ :=
  if w.processed_count + w.failed_count = 0 then 0
  else (w.processed_count : ℚ) / ((w.processed_count : ℚ) + (w.failed_count : ℚ))

/-- `PredictionStatus` from `app/models/prediction.py`. -/
inductive PredictionStatus where
  | pending : PredictionStatus
  | processing : PredictionStatus
  | completed : PredictionStatus
  | failed : PredictionStatus
deriving DecidableEq, Repr

/-- The JSON payload the handler writes into `Prediction.result`: either
`{"response": ..., "processing_time_ms": ...}` or `{"error": ...}`. -/
inductive PredPayload where
  | completed (response : Option String) (processing_time_ms : Int) : PredPayload
  | failed (error : Option String) : PredPayload
deriving DecidableEq, Repr

/-- The columns of `Prediction` that the pipeline reads or writes
(`app/models/prediction.py`); `input_data`, `model_id` and the
timestamps are referenced by no pipeline operation. -/
structure Prediction where
  id : String
  user_id : String
  cost_charged : Int
  status : PredictionStatus
  result : Option PredPayload
  error_message : Option String
deriving DecidableEq, Repr

/-- `TransactionType` from `app/models/transaction.py`. -/
inductive TransactionType where
  | deposit : TransactionType
  | withdraw : TransactionType
  | ml_request : TransactionType
  | refund : TransactionType
deriving DecidableEq, Repr

/-- `TransactionStatus` from `app/models/transaction.py`. -/
inductive TransactionStatus where
  | pending : TransactionStatus
  | completed : TransactionStatus
  | failed : TransactionStatus
deriving DecidableEq, Repr

/-- A row of the append-only `transactions` table.  The `uuid4` id is
modelled by a fresh-name counter rendered to a string. -/
structure Transaction where
  id : String
  user_id : String
  type : TransactionType
  amount : Int
  status : TransactionStatus
  description : String
deriving DecidableEq, Repr

/-- One database snapshot: the `predictions` and `transactions` tables
and the `user_balances` table (primary key `user_id`, so one row per
user). -/
structure DB where
  predictions : List Prediction
  balances : List (String × Int)
  transactions : List Transaction
deriving DecidableEq, Repr

/-- A SQLAlchemy session over the store: ORM mutations and `db.add` act
on `pending`; `db.commit()` publishes `pending` as `committed`;
`db.rollback()` restores `pending` from `committed`.  `fresh` feeds the
modelled `uuid4` generator. -/
structure Session where
  committed : DB
  pending : DB
  fresh : Nat
deriving DecidableEq, Repr

/-- `db.query(Prediction).filter(Prediction.id == pid).first()`. -/
def findPrediction (db : DB) (pid : String) : Option Prediction :=
  db.predictions.find? (fun p => p.id = pid)

/-- Mutating the ORM object returned by the query: the first row with
the given id is replaced by `f` of it (ids are primary keys). -/
def updatePrediction : List Prediction → String → (Prediction → Prediction) →
    List Prediction
  | [], _, _ => []
  | p :: rest, pid, f =>
      if p.id = pid then f p :: rest
      else p :: updatePrediction rest pid f

/-- `db.query(UserBalance).filter(UserBalance.user_id == uid).first()`,
projected to the `balance` column. -/
def findBalance (db : DB) (uid : String) : Option Int :=
  (db.balances.find? (fun b => b.1 = uid)).map (·.2)

/-- Mutating the `balance` column of the fetched row. -/
def setBalance : List (String × Int) → String → Int → List (String × Int)
  | [], _, _ => []
  | b :: rest, uid, v =>
      if b.1 = uid then (uid, v) :: rest
      else b :: setBalance rest uid v

/-- `BalanceService.deduct` from `app/services/balance.py`: fetch the
row; absent row or `balance < amount` returns `False` with no mutation;
otherwise `balance -= amount` and `True`.  (The mutation lives in the
session's pending state; the caller commits.) -/
def BalanceService.deduct (db : DB) (uid : String) (amount : Int) : Bool × DB :=
  match findBalance db uid with
  | none => (false, db)
  | some b =>
      if b < amount then (false, db)
      else (true, { db with balances := setBalance db.balances uid (b - amount) })

/-- `BalanceService.refund` from `app/services/balance.py`: fetch the
row; absent row returns `False`; otherwise `balance += amount`
unconditionally and `True`. -/
def BalanceService.refund (db : DB) (uid : String) (amount : Int) : Bool × DB :=
  match findBalance db uid with
  | none => (false, db)
  | some b =>
      (true, { db with balances := setBalance db.balances uid (b + amount) })

/-- `BalanceService.get_balance`: the fetched balance, or 0 when the row
is absent. -/
def BalanceService.get_balance (db : DB) (uid : String) : Int :=
  (findBalance db uid).getD 0

/-- `TransactionService.create_refund_transaction`: `db.add` of a
`REFUND` row with positive `amount` and status `COMPLETED`; the id comes
from the modelled uuid generator. -/
def TransactionService.create_refund_transaction (db : DB) (fresh : Nat)
    (uid : String) (amount : Int) (description : String) : DB × Nat :=
  ({ db with transactions := db.transactions ++
      [{ id := "txn-" ++ toString fresh, user_id := uid,
         type := .refund, amount := amount,
         status := .completed, description := description }] },
   fresh + 1)

/-- `TransactionService.create_ml_request_transaction`: `db.add` of an
`ML_REQUEST` row with `amount` negated. -/
def TransactionService.create_ml_request_transaction (db : DB) (fresh : Nat)
    (uid : String) (amount : Int) (description : String) : DB × Nat :=
  ({ db with transactions := db.transactions ++
      [{ id := "txn-" ++ toString fresh, user_id := uid,
         type := .ml_request, amount := -amount,
         status := .completed, description := description }] },
   fresh + 1)

/-- `WorkerResult` from `app/workers/base.py`.  The two processing
timestamps only ever feed the derived `processing_time_ms`, which is
modelled directly. -/
structure WorkerResult where
  success : Bool
  prediction_id : String
  response : Option String
  error : Option String
  processing_time_ms : Int
deriving DecidableEq, Repr

/-- Where, if anywhere, the persistence layer raises inside
`PredictionResultHandler._refund_user`.  `atCredit` is an exception
before `BalanceService.refund` mutates anything (e.g. the balance query
fails); `atInsert` is an exception raised by
`create_refund_transaction` after the balance was already credited.
Either way `_refund_user` catches the exception itself and only logs. -/
inductive RefundFault where
  | ok : RefundFault
  | atCredit : RefundFault
  | atInsert : RefundFault
deriving DecidableEq, Repr

/-- The fault oracle for one `handle` invocation: a fault inside
`_refund_user`, and whether `db.commit()` raises. -/
structure Faults where
  refundFault : RefundFault
  commitFails : Bool
deriving DecidableEq, Repr

/-- The fault-free oracle. -/
def noFaults : Faults := ⟨.ok, false⟩

/-- `PredictionResultHandler._refund_user` from
`app/workers/handlers.py`: return silently when `cost_charged ≤ 0`;
otherwise credit the balance (the `refund` return value is ignored, so a
missing balance row is not an error) and append the `Refund`
transaction.  Any exception inside is caught and logged, leaving
whatever sub-steps already ran in the pending state. -/
def refundUser (db : DB) (fresh : Nat) (p : Prediction)
    (fault : RefundFault) : DB × Nat :=
  let amount := p.cost_charged
  if amount ≤ 0 then (db, fresh)
  else
    match fault with
    | .atCredit => (db, fresh)
    | .atInsert => ((BalanceService.refund db p.user_id amount).2, fresh)
    | .ok =>
        let db1 := (BalanceService.refund db p.user_id amount).2
        TransactionService.create_refund_transaction db1 fresh p.user_id
          amount ("Refund for failed ML request: " ++ p.id.take 8 ++ "...")

/-- The three ORM assignments of the success branch of `handle`:
status `COMPLETED`, the result payload, `error_message = None`. -/
def setCompleted (response : Option String) (processing_time_ms : Int)
    (q : Prediction) : Prediction :=
  { q with
    status := .completed
    result := some (.completed response processing_time_ms)
    error_message := none }

/-- The three ORM assignments of the failure branch of `handle`:
status `FAILED`, `error_message`, `result = {"error": ...}`. -/
def setFailed (error : Option String) (q : Prediction) : Prediction :=
  { q with
    status := .failed
    error_message := error
    result := some (.failed error) }

/-- Replace the `predictions` table of a snapshot by an updated one. -/
def DB.withPredictions (db : DB) (ps : List Prediction) : DB :=
  { db with predictions := ps }

/-- `PredictionResultHandler.handle` from `app/workers/handlers.py`:
look the prediction up; absent returns `False`.  On success set status
`COMPLETED` with the result payload and clear the error; on failure set
status `FAILED` with the error payload and run `_refund_user`.  Then
`db.commit()`; a commit exception is caught by the outer guard, which
rolls back and returns `False`. -/
def handle (r : WorkerResult) (s : Session) (f : Faults) : Bool × Session :=
  match findPrediction s.pending r.prediction_id with
  | none => (false, s)
  | some p =>
      let afterUpdate : DB × Nat :=
        if r.success then
          (s.pending.withPredictions
            (updatePrediction s.pending.predictions r.prediction_id
              (setCompleted r.response r.processing_time_ms)),
           s.fresh)
        else
          refundUser
            (s.pending.withPredictions
              (updatePrediction s.pending.predictions r.prediction_id
                (setFailed r.error)))
            s.fresh p f.refundFault
      if f.commitFails then
        (false, { s with pending := s.committed })
      else
        (true, { committed := afterUpdate.1, pending := afterUpdate.1,
                 fresh := afterUpdate.2 })

/-- `PredictionStatusUpdater.mark_processing` on a fresh fault-free
session: find the prediction, set `PROCESSING`, commit; `False` and no
change when absent. -/
def markProcessing (db : DB) (pid : String) : Bool × DB :=
  match findPrediction db pid with
  | none => (false, db)
  | some _ =>
      (true, db.withPredictions
        (updatePrediction db.predictions pid
          (fun q => { q with status := .processing })))

/-- The two ORM assignments of `mark_failed`: status `FAILED` and the
error text (`result` is untouched on this path). -/
def setFailedStatus (error : String) (q : Prediction) : Prediction :=
  { q with
    status := .failed
    error_message := some error }

/-- `PredictionStatusUpdater.mark_failed` on a fresh fault-free session:
find the prediction, set `FAILED` with the error, commit; `False` and no
change when absent. -/
def markFailed (db : DB) (pid : String) (error : String) : Bool × DB :=
  match findPrediction db pid with
  | none => (false, db)
  | some _ =>
      (true, db.withPredictions
        (updatePrediction db.predictions pid (setFailedStatus error)))

/-- The number of `Refund` transactions for a user. -/
def refundCount (db : DB) (uid : String) : Nat :=
  (db.transactions.filter
    (fun t => t.user_id = uid ∧ t.type = TransactionType.refund)).length

/-- The number of `Refund` transactions for a user with a given amount. -/
def refundCountAmount (db : DB) (uid : String) (amount : Int) : Nat :=
  (db.transactions.filter
    (fun t => t.user_id = uid ∧ t.type = TransactionType.refund ∧
      t.amount = amount)).length

/-- The outcome of the one external call
`self._ollama_service.chat(...)` inside `MLWorker.process`: a response
with `success=True`, a response with `success=False`, or a raised
exception (timeout, connection failure, ...). -/
inductive BackendOutcome where
  | success (content : String) : BackendOutcome
  | failure (error : String) : BackendOutcome
  | exn (msg : String) : BackendOutcome
deriving DecidableEq, Repr

/-- Everything observable about one `BaseWorker.execute` run: the
returned `WorkerResult`, whether the inference backend was called,
the result (if any) handed to `PredictionResultHandler.handle`, the
committed store afterwards, and the worker counters. -/
structure ExecTrace where
  result : WorkerResult
  backendCalled : Bool
  handledResult : Option WorkerResult
  db : DB
  fresh : Nat
  counters : WorkerCounters

/-- The text `MLWorker._save_validation_error` writes:
`f"Validation error: {validation_result.error_message}"`. -/
def validationErrorText (v : ValidationResult) : String :=
  "Validation error: " ++
    (match v.error_message with
     | some s => s
     | none => "None")

/-- `BaseWorker.execute` specialised to `MLWorker`
(`app/workers/base.py` + `app/workers/ml_worker.py`), persistence
fault-free.  `validate` runs the composite validator on
`{message, conversation_history}`; when it fails, the prediction is
marked `FAILED` with the validation text, `_failed_count` is bumped and
a failed `WorkerResult` with error `"Validation failed"` is returned —
without calling the backend and without invoking the result handler.
When it passes, `process` marks the prediction `PROCESSING`, calls the
backend, builds the `WorkerResult` from the outcome (an exception maps
to a failed result carrying its text), hands it to
`PredictionResultHandler.handle` on the same session, and `execute`
bumps the matching counter. -/
def executeML (task : MLTaskMessage) (backend : BackendOutcome)
    (elapsed_ms : Int) (db : DB) (fresh : Nat) (w : WorkerCounters) :
    ExecTrace :=
  let v := validateTask task.message (.arr task.conversation_history)
  if v.is_valid then
    let db1 := (markProcessing db task.prediction_id).2
    let r : WorkerResult :=
      match backend with
      | .success content =>
          { success := true, prediction_id := task.prediction_id,
            response := some content, error := none,
            processing_time_ms := elapsed_ms }
      | .failure error =>
          { success := false, prediction_id := task.prediction_id,
            response := none, error := some error,
            processing_time_ms := elapsed_ms }
      | .exn msg =>
          { success := false, prediction_id := task.prediction_id,
            response := none, error := some msg,
            processing_time_ms := elapsed_ms }
    let s1 := (handle r ⟨db1, db1, fresh⟩ noFaults).2
    { result := r, backendCalled := true, handledResult := some r,
      db := s1.committed, fresh := s1.fresh,
      counters :=
        if r.success then
          { w with processed_count := w.processed_count + 1 }
        else
          { w with failed_count := w.failed_count + 1 } }
  else
    let db1 := (markFailed db task.prediction_id (validationErrorText v)).2
    { result :=
        { success := false, prediction_id := task.prediction_id,
          response := none, error := some "Validation failed",
          processing_time_ms := 0 },
      backendCalled := false, handledResult := none,
      db := db1, fresh := fresh,
      counters := { w with failed_count := w.failed_count + 1 } }

/-- `TaskConsumer._handle_failure` from `app/messaging/consumer.py`:
when `task.can_retry()`, publish `task.increment_retry()` (a brand-new
message) and stop; otherwise only log — nothing is republished. -/
def handleFailure (task : MLTaskMessage) : Option MLTaskMessage :=
  if task.can_retry then some task.increment_retry else none

/-- One delivered message driven end to end: `WorkerRunner._handle_message`
returns `result.success` to `TaskConsumer.process_message`, which calls
`_handle_failure` exactly when that is `False`.  The second component is
the retry copy the Consumer republishes, if any. -/
def consumerProcess (task : MLTaskMessage) (backend : BackendOutcome)
    (elapsed_ms : Int) (db : DB) (fresh : Nat) (w : WorkerCounters) :
    ExecTrace × Option MLTaskMessage :=
  let t := executeML task backend elapsed_ms db fresh w
  if t.result.success then (t, none) else (t, handleFailure task)

section Lemmas

/-- Updating a prediction by id leaves the other tables untouched and
the updated row findable, provided the update preserves the id. -/
theorem find?_updatePrediction (ps : List Prediction) (pid : String)
    (f : Prediction → Prediction) (hf : ∀ q, (f q).id = q.id) :
    (updatePrediction ps pid f).find? (fun q => q.id = pid)
      = (ps.find? (fun q => q.id = pid)).map f := by
  induction ps with
  | nil => rfl
  | cons p rest ih =>
      by_cases h : p.id = pid
      · rw [updatePrediction, if_pos h]
        rw [List.find?_cons_of_pos _
            (by simp only [decide_eq_true_eq]; rw [hf]; exact h),
          List.find?_cons_of_pos _ (by simp [h])]
        rfl
      · rw [updatePrediction, if_neg h]
        rw [List.find?_cons_of_neg _ (by simp [h]),
          List.find?_cons_of_neg _ (by simp [h]), ih]

/-- After `setBalance`, the user's row holds the new value (when a row
existed). -/
theorem find?_setBalance (bs : List (String × Int)) (uid : String) (v : Int)
    (h : (bs.find? (fun x => x.1 = uid)).isSome) :
    (setBalance bs uid v).find? (fun x => x.1 = uid) = some (uid, v) := by
  induction bs with
  | nil => simp [List.find?] at h
  | cons b rest ih =>
      by_cases hb : b.1 = uid
      · rw [setBalance, if_pos hb]
        rw [List.find?_cons_of_pos _ (by simp)]
      · rw [setBalance, if_neg hb]
        rw [List.find?_cons_of_neg _ (by simp [hb])]
        rw [List.find?_cons_of_neg _ (by simp [hb])] at h
        exact ih h

/-- `withPredictions` only replaces the predictions table. -/
theorem withPredictions_balances (db : DB) (ps : List Prediction) :
    (db.withPredictions ps).balances = db.balances := rfl

/-- `withPredictions` only replaces the predictions table. -/
theorem withPredictions_transactions (db : DB) (ps : List Prediction) :
    (db.withPredictions ps).transactions = db.transactions := rfl

/-- Appending one matching row bumps a filtered count by one. -/
theorem length_filter_append_singleton {α : Type} (p : α → Bool)
    (xs : List α) (a : α) (h : p a = true) :
    ((xs ++ [a]).filter p).length = (xs.filter p).length + 1 := by
  rw [List.filter_append, List.length_append]
  simp [List.filter, h]

end Lemmas

section ClaimC9

/-- C9: `BaseWorker.success_rate` is total and never divides by zero:
it returns 0 when `processed_count + failed_count = 0`, otherwise
`processed_count / (processed_count + failed_count)`, and the value
always lies in `[0, 1]`. -/
theorem success_rate_spec (w : WorkerCounters) :
    (w.processed_count + w.failed_count = 0 →
      BaseWorker.success_rate w = 0) ∧
    (w.processed_count + w.failed_count ≠ 0 →
      BaseWorker.success_rate w =
        (w.processed_count : ℚ) /
          ((w.processed_count : ℚ) + (w.failed_count : ℚ))) ∧
    0 ≤ BaseWorker.success_rate w ∧ BaseWorker.success_rate w ≤ 1 := by
  unfold BaseWorker.success_rate
  by_cases h : w.processed_count + w.failed_count = 0
  · simp [h]
  · have hpos : 0 < (w.processed_count : ℚ) + (w.failed_count : ℚ) := by
      have h1 : 0 < w.processed_count + w.failed_count := Nat.pos_of_ne_zero h
      exact_mod_cast h1
    refine ⟨fun hc => absurd hc h, fun _ => by simp [h], ?_, ?_⟩
    · rw [if_neg h]
      positivity
    · rw [if_neg h]
      rw [div_le_one hpos]
      have : (w.processed_count : ℚ) ≤
          (w.processed_count : ℚ) + (w.failed_count : ℚ) := by
        have : (0 : ℚ) ≤ (w.failed_count : ℚ) := by positivity
        linarith
      exact this

/-- Witness for C9 at a concrete counter state. -/
theorem success_rate_spec_witness :
    (3 + 1 ≠ 0) ∧ BaseWorker.success_rate ⟨3, 1⟩ = 3 / 4 := by
  refine ⟨by decide, ?_⟩
  have hr := (success_rate_spec ⟨3, 1⟩).2.1 (by decide)
  rw [hr]
  norm_num

end ClaimC9

section ClaimC4

/-- C4: the Consumer's failure path preserves
`0 ≤ retry_count ≤ max_retries`: it republishes exactly
`increment_retry` (retry_count + 1, all other fields unchanged) and only
when `can_retry()` holds, and it republishes nothing once
`retry_count = max_retries`. -/
theorem retry_pipeline_invariant (m : MLTaskMessage)
    (h0 : 0 ≤ m.retry_count) (h1 : m.retry_count ≤ m.max_retries) :
    (∀ m', handleFailure m = some m' →
      m' = m.increment_retry ∧
      m'.retry_count = m.retry_count + 1 ∧
      0 ≤ m'.retry_count ∧
      m'.retry_count ≤ m'.max_retries ∧
      m'.max_retries = m.max_retries) ∧
    (m.retry_count = m.max_retries → handleFailure m = none) := by
  constructor
  · intro m' hm'
    unfold handleFailure at hm'
    by_cases h : m.can_retry = true
    · rw [if_pos h] at hm'
      injection hm' with hmm
      subst hmm
      have hlt : m.retry_count < m.max_retries := by
        simpa [MLTaskMessage.can_retry] using h
      refine ⟨rfl, rfl, ?_, ?_, rfl⟩
      · show (0 : Int) ≤ m.retry_count + 1
        omega
      · show m.retry_count + 1 ≤ m.max_retries
        omega
    · rw [if_neg h] at hm'
      cases hm'
  · intro heq
    unfold handleFailure
    rw [if_neg]
    simp [MLTaskMessage.can_retry, heq]

/-- Witness for C4 at a retryable concrete message. -/
theorem retry_pipeline_invariant_witness :
    (0 : Int) ≤ 0 ∧ (0 : Int) ≤ 3 ∧
    ∃ m', handleFailure
        ⟨"t", "p", "u", "hi", [], "mod", .normal, "now", 0, 3⟩ = some m' ∧
      m'.retry_count = 1 := by
  refine ⟨le_refl 0, by decide, ?_⟩
  have h := retry_pipeline_invariant
    ⟨"t", "p", "u", "hi", [], "mod", .normal, "now", 0, 3⟩
    (by decide) (by decide)
  exact ⟨_, rfl, (h.1 _ rfl).2.1⟩

end ClaimC4

section ClaimC5

/-- C5: `BalanceService.deduct` never drives a balance below zero: with
no balance row or `balance < amount` it returns `False` and changes
nothing; otherwise it subtracts exactly `amount`, leaving a non-negative
balance, and returns `True` (and touches no other table). -/
theorem deduct_spec (db : DB) (uid : String) (amount : Int) :
    (findBalance db uid = none →
      BalanceService.deduct db uid amount = (false, db)) ∧
    (∀ b, findBalance db uid = some b →
      (b < amount → BalanceService.deduct db uid amount = (false, db)) ∧
      (amount ≤ b →
        (BalanceService.deduct db uid amount).1 = true ∧
        findBalance (BalanceService.deduct db uid amount).2 uid
          = some (b - amount) ∧
        0 ≤ b - amount ∧
        (BalanceService.deduct db uid amount).2.predictions
          = db.predictions ∧
        (BalanceService.deduct db uid amount).2.transactions
          = db.transactions)) := by
  constructor
  · intro hnone
    unfold BalanceService.deduct
    rw [hnone]
  · intro b hb
    constructor
    · intro hlt
      simp [BalanceService.deduct, hb, hlt]
    · intro hge
      have hnotlt : ¬ b < amount := not_lt.mpr hge
      have hsome : (db.balances.find? (fun x => x.1 = uid)).isSome := by
        unfold findBalance at hb
        cases hfind : db.balances.find? (fun x => x.1 = uid) with
        | none => rw [hfind] at hb; cases hb
        | some x => rfl
      refine ⟨by simp [BalanceService.deduct, hb, hnotlt], ?_,
        by linarith, by simp [BalanceService.deduct, hb, hnotlt],
        by simp [BalanceService.deduct, hb, hnotlt]⟩
      simp only [BalanceService.deduct, hb, hnotlt, if_false]
      unfold findBalance
      rw [find?_setBalance db.balances uid (b - amount) hsome]
      rfl

/-- Witness for C5: a concrete sufficient-balance deduction. -/
theorem deduct_spec_witness :
    findBalance ⟨[], [("user-1", (1000 : Int))], []⟩ "user-1" = some 1000 ∧
    (10 : Int) ≤ 1000 ∧
    (BalanceService.deduct ⟨[], [("user-1", 1000)], []⟩ "user-1" 10).1
      = true ∧
    findBalance
      (BalanceService.deduct ⟨[], [("user-1", 1000)], []⟩ "user-1" 10).2
      "user-1" = some 990 := by
  have h := (deduct_spec ⟨[], [("user-1", 1000)], []⟩ "user-1" 10).2
    1000 (by decide)
  have h2 := h.2 (by norm_num)
  refine ⟨by decide, by norm_num, h2.1, ?_⟩
  rw [h2.2.1]
  norm_num

end ClaimC5

/-- A concrete wire object whose `conversation_history` is JSON null. -/
def wireNullW : Json :=
  .obj [("task_id", .str "t"), ("prediction_id", .str "p"),
        ("user_id", .str "u"), ("message", .str "hi"),
        ("conversation_history", .null),
        ("model_id", .str "mod"), ("priority", .num 5),
        ("created_at", .str "now"), ("retry_count", .num 0),
        ("max_retries", .num 3)]

/-- A concrete valid task message used by several witnesses. -/
def msgW : MLTaskMessage where
  task_id := "t"
  prediction_id := "p"
  user_id := "u"
  message := "hi"
  conversation_history := []
  model_id := "mod"
  priority := .normal
  created_at := "now"
  retry_count := 0
  max_retries := 3

section ClaimC10

/-- Inverting the decoder: whenever `from_json` succeeds, the stored
history is exactly what `getHistory` decoded. -/
theorem fromJson_history (j : Json) (m : MLTaskMessage)
    (h : MLTaskMessage.fromJson j = .ok m) :
    getHistory j = .ok m.conversation_history := by
  unfold MLTaskMessage.fromJson at h
  simp only [bind, Except.bind, pure, Except.pure] at h
  repeat' split at h
  all_goals cases h
  all_goals assumption

/-- C10: the public interface never exposes a `None` history —
constructing with `conversation_history=None` stores the empty list, and
deserializing wire JSON whose `conversation_history` is `null` stores
the empty list. -/
theorem history_never_none :
    (∀ ti pi ui msg mid pr ca rc mr m,
      mkMLTaskMessage ti pi ui msg none mid pr ca rc mr = .ok m →
      m.conversation_history = []) ∧
    (∀ j m, MLTaskMessage.fromJson j = .ok m →
      j.getField "conversation_history" = some .null →
      m.conversation_history = []) := by
  constructor
  · intro ti pi ui msg mid pr ca rc mr m h
    unfold mkMLTaskMessage at h
    cases hv : validateMessage msg with
    | error e => rw [hv] at h; cases h
    | ok v =>
        rw [hv] at h
        injection h with hm
        rw [← hm]
        rfl
  · intro j m h hnull
    have hh := fromJson_history j m h
    rw [getHistory, hnull] at hh
    injection hh with hl
    exact hl.symm

/-- Witness for C10: a concrete construction with `None` history and a
concrete wire object with `null` history. -/
theorem history_never_none_witness :
    (∃ m, mkMLTaskMessage "t" "p" "u" "hi" none "mod" .normal "now" 0 3
        = .ok m ∧ m.conversation_history = []) ∧
    (∃ m, MLTaskMessage.fromJson wireNullW = .ok m ∧
      m.conversation_history = []) := by
  constructor
  · refine ⟨msgW, by rfl, ?_⟩
    exact history_never_none.1 "t" "p" "u" "hi" "mod" .normal "now" 0 3 msgW
      (by rfl)
  · refine ⟨msgW, by rfl, ?_⟩
    exact history_never_none.2 wireNullW msgW (by rfl) rfl

end ClaimC10

section ClaimC8

/-- Decoding the emitted `task_id` field. -/
theorem getStr_toJson_task_id (m : MLTaskMessage) :
    getStr m.toJson "task_id" = .ok m.task_id := by rfl

/-- Decoding the emitted `prediction_id` field. -/
theorem getStr_toJson_prediction_id (m : MLTaskMessage) :
    getStr m.toJson "prediction_id" = .ok m.prediction_id := by rfl

/-- Decoding the emitted `user_id` field. -/
theorem getStr_toJson_user_id (m : MLTaskMessage) :
    getStr m.toJson "user_id" = .ok m.user_id := by rfl

/-- Decoding the emitted `message` field. -/
theorem getStr_toJson_message (m : MLTaskMessage) :
    getStr m.toJson "message" = .ok m.message := by rfl

/-- Decoding the emitted `conversation_history` field. -/
theorem getHistory_toJson (m : MLTaskMessage) :
    getHistory m.toJson = .ok m.conversation_history := by rfl

/-- Decoding the emitted `model_id` field. -/
theorem getStr_toJson_model_id (m : MLTaskMessage) :
    getStr m.toJson "model_id" = .ok m.model_id := by rfl

/-- The numeric priority value parses back to the same enum member. -/
theorem getPriority_toJson (m : MLTaskMessage) :
    getPriority m.toJson = .ok m.priority := by
  cases hp : m.priority <;>
    simp [getPriority, MLTaskMessage.toJson, Json.getField, lookupField,
      TaskPriority.toInt, TaskPriority.ofInt, hp]

/-- Decoding the emitted `created_at` field. -/
theorem getStr_toJson_created_at (m : MLTaskMessage) :
    getStr m.toJson "created_at" = .ok m.created_at := by rfl

/-- Decoding the emitted `retry_count` field. -/
theorem getNum_toJson_retry_count (m : MLTaskMessage) :
    getNum m.toJson "retry_count" = .ok m.retry_count := by rfl

/-- Decoding the emitted `max_retries` field. -/
theorem getNum_toJson_max_retries (m : MLTaskMessage) :
    getNum m.toJson "max_retries" = .ok m.max_retries := by rfl

/-- C8: the wire round trip is the identity on every valid message — a
message as the validators store it (message stripped and non-empty)
decodes from its own encoding field for field.  The decoder builds the
value from the wire text alone, so it shares no state with the
original. -/
theorem toJson_fromJson_roundtrip (m : MLTaskMessage)
    (hstrip : pyStrip m.message = m.message) (hne : m.message ≠ "") :
    MLTaskMessage.fromJson m.toJson = .ok m := by
  have hval : validateMessage m.message = .ok m.message := by
    unfold validateMessage
    rw [if_neg, hstrip]
    rintro (h | h)
    · exact hne h
    · rw [hstrip] at h
      exact hne h
  unfold MLTaskMessage.fromJson
  simp only [getStr_toJson_task_id, getStr_toJson_prediction_id,
    getStr_toJson_user_id, getStr_toJson_message, hval, getHistory_toJson,
    getStr_toJson_model_id, getPriority_toJson, getStr_toJson_created_at,
    getNum_toJson_retry_count, getNum_toJson_max_retries,
    bind, Except.bind, pure, Except.pure]

/-- Witness for C8 at a concrete valid message. -/
theorem toJson_fromJson_roundtrip_witness :
    pyStrip msgW.message = msgW.message ∧ msgW.message ≠ "" ∧
    MLTaskMessage.fromJson msgW.toJson = .ok msgW :=
  ⟨by decide, by decide, toJson_fromJson_roundtrip msgW (by decide) (by decide)⟩

end ClaimC8

section ScenarioB

/-- Scenario B's prediction: charged 10.00, currently processing. -/
def predB : Prediction where
  id := "pred-0001"
  user_id := "user-1"
  cost_charged := 10
  status := .processing
  result := none
  error_message := none

/-- Scenario B's store: the prediction, a prior balance of 990, an empty
ledger. -/
def dbB : DB := ⟨[predB], [("user-1", 990)], []⟩

/-- The worker's failure report for Scenario B. -/
def resultB : WorkerResult where
  success := false
  prediction_id := "pred-0001"
  response := none
  error := some "Model timeout"
  processing_time_ms := 0

/-- The handler run once on Scenario B, fault-free. -/
def outB : Bool × Session := handle resultB ⟨dbB, dbB, 0⟩ noFaults

/-- The handler run a second time on the already-Failed prediction. -/
def outB2 : Bool × Session := handle resultB outB.2 noFaults

end ScenarioB

section ClaimC7

/-- C7: on worker failure with `cost_charged = 10.00` and prior balance
990, the handler reports success, the prediction is Failed, the balance
returns to 1000, and exactly one Refund transaction of amount +10 exists
for the user. -/
theorem scenario_b_refund :
    outB.1 = true ∧
    (findPrediction outB.2.committed "pred-0001").map (fun p => p.status)
      = some .failed ∧
    findBalance outB.2.committed "user-1" = some 1000 ∧
    refundCount outB.2.committed "user-1" = 1 ∧
    refundCountAmount outB.2.committed "user-1" 10 = 1 := by
  decide

end ClaimC7

section ClaimC1

/-- Counterexample to C1 as stated: running the handler a second time
against the already-Failed Scenario B prediction succeeds again, appends
a second Refund transaction and credits the balance a second time (1000
→ 1010) — there is no idempotence guard in `handle`. -/
theorem handle_refailed_double_refund_cex :
    (findPrediction outB.2.committed "pred-0001").map (fun p => p.status)
      = some .failed ∧
    outB2.1 = true ∧
    refundCount outB2.2.committed "user-1" = 2 ∧
    findBalance outB2.2.committed "user-1" = some 1010 := by
  decide

/-- One fault-free `handle` invocation on a failed result for a present
prediction with positive cost and an existing balance row: it returns
`True`, commits the Failed status, credits the balance by exactly
`cost_charged` and appends exactly one more Refund transaction of that
amount. -/
theorem handle_failed_spec (r : WorkerResult) (s : Session) (p : Prediction)
    (b : Int)
    (hfind : findPrediction s.pending r.prediction_id = some p)
    (hfail : r.success = false)
    (hcost : 0 < p.cost_charged)
    (hbal : findBalance s.pending p.user_id = some b) :
    (handle r s noFaults).1 = true ∧
    (handle r s noFaults).2.pending = (handle r s noFaults).2.committed ∧
    findPrediction (handle r s noFaults).2.committed r.prediction_id
      = some (setFailed r.error p) ∧
    findBalance (handle r s noFaults).2.committed p.user_id
      = some (b + p.cost_charged) ∧
    refundCount (handle r s noFaults).2.committed p.user_id
      = refundCount s.pending p.user_id + 1 ∧
    refundCountAmount (handle r s noFaults).2.committed p.user_id
        p.cost_charged
      = refundCountAmount s.pending p.user_id p.cost_charged + 1 := by
  have hne : ¬ p.cost_charged ≤ 0 := not_le.mpr hcost
  have hsome : (s.pending.balances.find? (fun x => x.1 = p.user_id)).isSome := by
    unfold findBalance at hbal
    cases hf2 : s.pending.balances.find? (fun x => x.1 = p.user_id) with
    | none => rw [hf2] at hbal; cases hbal
    | some x => rfl
  have hbal1 : findBalance
      (DB.withPredictions s.pending
        (updatePrediction s.pending.predictions r.prediction_id
          (setFailed r.error))) p.user_id = some b := hbal
  unfold handle
  rw [hfind]
  dsimp only
  rw [hfail]
  simp only [Bool.false_eq_true, if_false, noFaults]
  unfold refundUser
  rw [if_neg hne]
  dsimp only
  unfold BalanceService.refund
  rw [hbal1]
  dsimp only
  unfold TransactionService.create_refund_transaction
  dsimp only
  refine ⟨trivial, trivial, ?_, ?_, ?_, ?_⟩
  · unfold findPrediction
    dsimp only [DB.withPredictions]
    rw [find?_updatePrediction s.pending.predictions r.prediction_id
      (setFailed r.error) (fun q => rfl)]
    unfold findPrediction at hfind
    rw [hfind]
    rfl
  · unfold findBalance
    dsimp only [DB.withPredictions]
    rw [find?_setBalance _ _ _ hsome]
    rfl
  · unfold refundCount
    rw [length_filter_append_singleton _ _ _ (by simp)]
    dsimp only [DB.withPredictions]
  · unfold refundCountAmount
    rw [length_filter_append_singleton _ _ _ (by simp)]
    dsimp only [DB.withPredictions]

/-- C1 as amended: a single reconciliation of a failed prediction with
`cost_charged > 0` yields exactly one additional Refund transaction of
amount `cost_charged` (so exactly one in total starting from a clean
ledger) — but `handle` carries no idempotence guard, so a second
invocation against the now-Failed prediction appends a second Refund and
credits the balance a second time. -/
theorem handle_refund_once_per_invocation (r : WorkerResult) (s : Session)
    (p : Prediction) (b : Int)
    (hfind : findPrediction s.pending r.prediction_id = some p)
    (hfail : r.success = false)
    (hcost : 0 < p.cost_charged)
    (hbal : findBalance s.pending p.user_id = some b)
    (hclean : refundCount s.pending p.user_id = 0) :
    (handle r s noFaults).1 = true ∧
    refundCount (handle r s noFaults).2.committed p.user_id = 1 ∧
    refundCountAmount (handle r s noFaults).2.committed p.user_id
      p.cost_charged = refundCountAmount s.pending p.user_id p.cost_charged
        + 1 ∧
    findBalance (handle r s noFaults).2.committed p.user_id
      = some (b + p.cost_charged) ∧
    (handle r (handle r s noFaults).2 noFaults).1 = true ∧
    refundCount
      (handle r (handle r s noFaults).2 noFaults).2.committed p.user_id
      = 2 ∧
    findBalance
      (handle r (handle r s noFaults).2 noFaults).2.committed p.user_id
      = some (b + p.cost_charged + p.cost_charged) := by
  obtain ⟨h1, h2, h3, h4, h5, h6⟩ :=
    handle_failed_spec r s p b hfind hfail hcost hbal
  have hfind2 : findPrediction (handle r s noFaults).2.pending
      r.prediction_id = some (setFailed r.error p) := by
    rw [h2]; exact h3
  have hbal2 : findBalance (handle r s noFaults).2.pending
      (setFailed r.error p).user_id = some (b + p.cost_charged) := by
    rw [h2]; exact h4
  obtain ⟨g1, g2, g3, g4, g5, g6⟩ :=
    handle_failed_spec r (handle r s noFaults).2 (setFailed r.error p)
      (b + p.cost_charged) hfind2 hfail hcost hbal2
  have g4' : findBalance
      (handle r (handle r s noFaults).2 noFaults).2.committed p.user_id
      = some (b + p.cost_charged + p.cost_charged) := g4
  have g5' : refundCount
      (handle r (handle r s noFaults).2 noFaults).2.committed p.user_id
      = refundCount (handle r s noFaults).2.pending p.user_id + 1 := g5
  refine ⟨h1, by rw [h5, hclean], h6, h4, g1, ?_, g4'⟩
  have hone : refundCount (handle r s noFaults).2.pending p.user_id = 1 := by
    rw [h2, h5, hclean]
  rw [g5', hone]

/-- Witness for the amended C1 on Scenario B's store. -/
theorem handle_refund_once_per_invocation_witness :
    findPrediction dbB "pred-0001" = some predB ∧
    resultB.success = false ∧
    (0 : Int) < predB.cost_charged ∧
    findBalance dbB "user-1" = some 990 ∧
    refundCount dbB "user-1" = 0 ∧
    refundCount (handle resultB ⟨dbB, dbB, 0⟩ noFaults).2.committed
      "user-1" = 1 ∧
    refundCount
      (handle resultB (handle resultB ⟨dbB, dbB, 0⟩ noFaults).2
        noFaults).2.committed "user-1" = 2 := by
  have h := handle_refund_once_per_invocation resultB ⟨dbB, dbB, 0⟩ predB
    990 (by decide) (by decide) (by decide) (by decide) (by decide)
  exact ⟨by decide, by decide, by decide, by decide, by decide,
    h.2.1, h.2.2.2.2.2.1⟩

end ClaimC1

section ClaimC2

/-- Scenario B's handler run with a persistence fault inside
`_refund_user` (the balance credit raises before mutating). -/
def outBF : Bool × Session := handle resultB ⟨dbB, dbB, 0⟩ ⟨.atCredit, false⟩

/-- Counterexample to C2 as stated: when the balance-credit step raises,
`_refund_user` swallows the exception, so `handle` still commits the
status update (prediction Failed) with no balance credit and no Refund
row — some of the unit's steps take effect while others do not — and
returns `true`, not `false`. -/
theorem handle_refund_fault_commits_partially_cex :
    outBF.1 = true ∧
    (findPrediction outBF.2.committed "pred-0001").map (fun p => p.status)
      = some .failed ∧
    findBalance outBF.2.committed "user-1" = some 990 ∧
    refundCount outBF.2.committed "user-1" = 0 := by
  decide

/-- C2 as amended: the status update, balance credit and Refund insert
are buffered in one session and published by a single commit, so a
failing `db.commit()` rolls the whole unit back and `handle` returns
`false`; but a persistence failure inside `_refund_user` is caught and
logged there, after which `handle` still commits the status update
alone and returns `true`. -/
theorem handle_atomicity_amended :
    (∀ (r : WorkerResult) (s : Session) (rf : RefundFault),
      (handle r s ⟨rf, true⟩).1 = false ∧
      (handle r s ⟨rf, true⟩).2.committed = s.committed) ∧
    (∀ (r : WorkerResult) (s : Session) (p : Prediction),
      findPrediction s.pending r.prediction_id = some p →
      r.success = false →
      0 < p.cost_charged →
      (handle r s ⟨.atCredit, false⟩).1 = true ∧
      (handle r s ⟨.atCredit, false⟩).2.committed.balances
        = s.pending.balances ∧
      (handle r s ⟨.atCredit, false⟩).2.committed.transactions
        = s.pending.transactions ∧
      findPrediction (handle r s ⟨.atCredit, false⟩).2.committed
        r.prediction_id = some (setFailed r.error p)) := by
  constructor
  · intro r s rf
    unfold handle
    cases hf : findPrediction s.pending r.prediction_id with
    | none => exact ⟨rfl, rfl⟩
    | some p =>
        dsimp only
        rw [if_pos rfl]
        exact ⟨rfl, rfl⟩
  · intro r s p hfind hfail hcost
    have hne : ¬ p.cost_charged ≤ 0 := not_le.mpr hcost
    unfold handle
    rw [hfind]
    dsimp only
    rw [hfail]
    simp only [Bool.false_eq_true, if_false]
    unfold refundUser
    rw [if_neg hne]
    dsimp only [DB.withPredictions]
    refine ⟨by trivial, by trivial, by trivial, ?_⟩
    unfold findPrediction
    rw [find?_updatePrediction s.pending.predictions r.prediction_id
      (setFailed r.error) (fun q => rfl)]
    unfold findPrediction at hfind
    rw [hfind]
    rfl

/-- Witness for the amended C2 on Scenario B's store. -/
theorem handle_atomicity_amended_witness :
    (handle resultB ⟨dbB, dbB, 0⟩ ⟨.ok, true⟩).1 = false ∧
    (handle resultB ⟨dbB, dbB, 0⟩ ⟨.ok, true⟩).2.committed = dbB ∧
    (handle resultB ⟨dbB, dbB, 0⟩ ⟨.atCredit, false⟩).1 = true ∧
    (handle resultB ⟨dbB, dbB, 0⟩ ⟨.atCredit, false⟩).2.committed.transactions
      = [] := by
  have ha := handle_atomicity_amended.1 resultB ⟨dbB, dbB, 0⟩ .ok
  have hb := handle_atomicity_amended.2 resultB ⟨dbB, dbB, 0⟩ predB
    (by decide) (by decide) (by decide)
  exact ⟨ha.1, ha.2, hb.1, hb.2.2.1⟩

end ClaimC2

section ClaimC3

/-- A pending prediction and its store, used for the validation-failure
runs. -/
def predC : Prediction where
  id := "pred-0001"
  user_id := "user-1"
  cost_charged := 10
  status := .pending
  result := none
  error_message := none

/-- The store the invalid task's worker run operates on. -/
def dbC : DB := ⟨[predC], [("user-1", 990)], []⟩

/-- A task whose history entry lacks the `role` field: it passes the
pydantic schema (the history is an untyped list) but fails
`HistoryValidator`. -/
def invalidTask : MLTaskMessage where
  task_id := "t1"
  prediction_id := "pred-0001"
  user_id := "user-1"
  message := "hi"
  conversation_history := [.obj [("content", .str "x")]]
  model_id := "mod"
  priority := .normal
  created_at := "now"
  retry_count := 0
  max_retries := 3

/-- Counterexample to C3 as stated: the validation-failing task is never
processed (the backend is not called), yet the Consumer *does* republish
a retry copy of it — the handler only reports a boolean failure, so
`_handle_failure` fires and `can_retry()` holds. -/
theorem invalid_task_republished_cex :
    (validateTask invalidTask.message
      (.arr invalidTask.conversation_history)).is_valid = false ∧
    (consumerProcess invalidTask (.failure "x") 0 dbC 0 ⟨0, 0⟩).1.backendCalled
      = false ∧
    ((consumerProcess invalidTask (.failure "x") 0 dbC 0 ⟨0, 0⟩).2.map
      (fun t => t.retry_count)) = some 1 := by
  decide

/-- C3 as amended: a task failing composite validation is never
processed (the inference backend is not called) and its prediction is
marked Failed directly via `PredictionStatusUpdater`; but the Consumer
republishes an incremented-retry copy of it whenever `can_retry()`
holds, because the handler only returns `False` — republishing stops
only once retries are exhausted. -/
theorem invalid_task_pipeline_amended (task : MLTaskMessage)
    (backend : BackendOutcome) (ms : Int) (db : DB) (fresh : Nat)
    (w : WorkerCounters) (p : Prediction)
    (hv : (validateTask task.message
      (.arr task.conversation_history)).is_valid = false)
    (hp : findPrediction db task.prediction_id = some p) :
    (consumerProcess task backend ms db fresh w).1.backendCalled = false ∧
    (consumerProcess task backend ms db fresh w).1.handledResult = none ∧
    findPrediction (consumerProcess task backend ms db fresh w).1.db
        task.prediction_id
      = some (setFailedStatus (validationErrorText
          (validateTask task.message (.arr task.conversation_history))) p) ∧
    (consumerProcess task backend ms db fresh w).2
      = (if task.can_retry then some task.increment_retry else none) := by
  unfold consumerProcess executeML
  simp only [hv, Bool.false_eq_true, if_false]
  refine ⟨by trivial, by trivial, ?_, by trivial⟩
  unfold markFailed
  rw [hp]
  dsimp only [DB.withPredictions]
  unfold findPrediction
  rw [find?_updatePrediction db.predictions task.prediction_id
    (setFailedStatus _) (fun q => rfl)]
  unfold findPrediction at hp
  rw [hp]
  rfl

/-- Witness for the amended C3 on the invalid task. -/
theorem invalid_task_pipeline_amended_witness :
    (validateTask invalidTask.message
      (.arr invalidTask.conversation_history)).is_valid = false ∧
    (consumerProcess invalidTask (.success "ok") 0 dbC 0 ⟨0, 0⟩).1.handledResult
      = none ∧
    (consumerProcess invalidTask (.success "ok") 0 dbC 0 ⟨0, 0⟩).2
      = some invalidTask.increment_retry := by
  have h := invalid_task_pipeline_amended invalidTask (.success "ok") 0 dbC 0
    ⟨0, 0⟩ predC (by decide) (by decide)
  refine ⟨by decide, h.2.1, ?_⟩
  rw [h.2.2.2]
  have hc : invalidTask.can_retry = true := by decide
  rw [if_pos hc]

end ClaimC3

section ClaimC6

/-- Counterexample to C6 as stated: in the validation-failure outcome
the failed `WorkerResult` is returned without ever being handed to the
ResultHandler (the prediction is updated by `PredictionStatusUpdater`
instead). -/
theorem validation_failure_skips_handler_cex :
    (executeML invalidTask (.failure "x") 0 dbC 0 ⟨0, 0⟩).handledResult
      = none ∧
    (executeML invalidTask (.failure "x") 0 dbC 0 ⟨0, 0⟩).result.success
      = false := by
  decide

/-- C6 as amended: `execute` hands the produced `WorkerResult` to the
ResultHandler before returning in every outcome of `process` (backend
success, backend failure, raised exception) — but not in the
composite-validation-failure outcome, where a failed result is returned
without passing through the ResultHandler. -/
theorem execute_hands_result_amended (task : MLTaskMessage)
    (backend : BackendOutcome) (ms : Int) (db : DB) (fresh : Nat)
    (w : WorkerCounters) :
    ((validateTask task.message
        (.arr task.conversation_history)).is_valid = true →
      (executeML task backend ms db fresh w).handledResult
        = some (executeML task backend ms db fresh w).result) ∧
    ((validateTask task.message
        (.arr task.conversation_history)).is_valid = false →
      (executeML task backend ms db fresh w).handledResult = none ∧
      (executeML task backend ms db fresh w).result.success = false) := by
  constructor
  · intro hv
    unfold executeML
    simp only [hv, if_true]
  · intro hv
    unfold executeML
    simp only [hv, Bool.false_eq_true, if_false]
    exact ⟨by trivial, by trivial⟩

/-- Witness for the amended C6: a valid task's result is handed over,
whatever the backend outcome. -/
theorem execute_hands_result_amended_witness :
    (validateTask msgW.message
      (.arr msgW.conversation_history)).is_valid = true ∧
    (executeML msgW (.success "y") 5 dbC 0 ⟨0, 0⟩).handledResult
      = some (executeML msgW (.success "y") 5 dbC 0 ⟨0, 0⟩).result :=
  ⟨by decide,
    (execute_hands_result_amended msgW (.success "y") 5 dbC 0 ⟨0, 0⟩).1
      (by decide)⟩

end ClaimC6

end FoodProject
